import Mathlib

/-!
Shallow embedding of the supabase/ts-to-rls-demo playground core:
the sandboxed one-shot executor, the result channel, the example
catalog loader, the clipboard acknowledgement flow
(src/src/components/RLSTester.tsx) and the build-time type-snapshot
script (src/scripts/copy-types.js).
-/

namespace TsToRlsDemo

/-- Runtime classification of the JavaScript value returned by the user
program, as far as `typeof result === 'string'` can distinguish it.
`undef` models the absent value of a program with no explicit return. -/
inductive JSValue where
  | str (s : String)
  | num (n : Int)
  | boolean (b : Bool)
  | undef
  | obj
  deriving DecidableEq, Repr

/-- `typeof v === 'string'`. -/
def JSValue.isString : JSValue → Bool
  | .str _ => true
  | _ => false

/-- A thrown JavaScript value, as far as `err instanceof Error` can
distinguish it: an `Error` instance carrying its `message` property, or
any other thrown value. -/
inductive Thrown where
  | errorInstance (message : String)
  | nonError (v : JSValue)
  deriving DecidableEq, Repr

/-- Outcome of evaluating the user program body built by
`new Function(...)` and invoked once: it either returns a value or
throws. The evaluation itself is the browser's, so it enters the model
as an oracle; everything `executeCode` does with it is modelled below. -/
inductive EvalOutcome where
  | returns (v : JSValue)
  | throws (t : Thrown)
  deriving DecidableEq, Repr

/-- The component's session state: the four `useState` cells of
`RLSTester` (`input`, `output`, `error`, `copied`), plus the pending
`setTimeout` delay (in ms) of the scheduled `setCopied(false)` revert,
when one is armed. -/
structure State where
  input : String
  output : String
  error : String
  copied : Bool
  copyTimer : Option Nat
  deriving DecidableEq, Repr

/-- The fixed contract-violation message of `executeCode`. -/
def contractViolationMessage : String :=
  "Code must return a string (use policy.toSQL())"

/-- The generic fallback message used when the thrown value is not an
`Error` instance. -/
def genericFallbackMessage : String := "An error occurred"

/-- `err instanceof Error ? err.message : 'An error occurred'`. -/
def Thrown.displayMessage : Thrown → String
  | .errorInstance m => m
  | .nonError _ => genericFallbackMessage

/-- `executeCode` (RLSTester.tsx lines 215-249): inside the `try`,
`setError('')` runs first; if evaluation returns a string the output is
set to it; if it returns anything else the fixed contract-violation
message is set (the output cell is not touched); if evaluation throws,
the catch sets the error from the thrown value and clears the output. -/
def executeCode (outcome : EvalOutcome) (s : State) : State :=
  let s1 : State := { s with error := "" }
  match outcome with
  | .returns (.str r) => { s1 with output := r }
  | .returns _ => { s1 with error := contractViolationMessage }
  | .throws t => { s1 with error := t.displayMessage, output := "" }

/-- What the result pane renders: the error box when `error` is truthy,
else the SQL viewer when `output` is truthy, else the idle placeholder
(RLSTester.tsx lines 359-391). -/
inductive ResultView where
  | idle
  | success (text : String)
  | failure (message : String)
  deriving DecidableEq, Repr

/-- The rendered result as a function of the state. -/
def resultView (s : State) : ResultView :=
  if s.error ≠ "" then .failure s.error
  else if s.output ≠ "" then .success s.output
  else .idle

/-- The editor's `onChange` handler: `setInput(value || '')`. Monaco
passes `string | undefined`; both `undefined` and the empty string
collapse to `''`. Nothing else is updated. -/
def onChange (value : Option String) (s : State) : State :=
  { s with input := value.getD "" }

/-- `loadExample` (RLSTester.tsx lines 259-263): replaces the input with
the example's code and clears both output and error. -/
def loadExample (code : String) (s : State) : State :=
  { s with input := code, output := "", error := "" }

/-- The `setTimeout` delay, in milliseconds, of the copied-flag revert. -/
def copyAckDelayMs : Nat := 2000

/-- Result of one invocation of `copyToClipboard`: the new state and the
text handed to `navigator.clipboard.writeText`, when a write was
attempted at all. -/
structure CopyOutcome where
  state : State
  clipboardWrite : Option String
  deriving DecidableEq, Repr

/-- `copyToClipboard` (RLSTester.tsx lines 251-257): guarded by
`if (output)`; on a truthy output it awaits the clipboard write
(`writeOk` says whether that promise resolves) and, on completion, sets
`copied` and arms a 2000 ms revert timer. A rejected write aborts the
async body before `setCopied(true)`. -/
def copyToClipboard (writeOk : Bool) (s : State) : CopyOutcome :=
  if s.output ≠ "" then
    if writeOk then
      { state := { s with copied := true, copyTimer := some copyAckDelayMs },
        clipboardWrite := some s.output }
    else
      { state := s, clipboardWrite := some s.output }
  else
    { state := s, clipboardWrite := none }

/-- Firing the armed revert timer: the callback is `() => setCopied(false)`. -/
def fireCopyTimer (s : State) : State :=
  { s with copied := false, copyTimer := none }

/-- The ambient constants declared by the synthesized global-declarations
virtual document of `handleEditorWillMount` (RLSTester.tsx lines 174-189). -/
def globalDeclarationNames : List String :=
  ["createPolicy", "column", "auth", "session", "currentUser",
   "from", "hasRole", "alwaysTrue", "call", "policies"]

/-- The parameter names of the `new Function(...)` scope built by
`executeCode` (RLSTester.tsx lines 219-228), each bound positionally to
the same-named `RLS` export (lines 230-238). -/
def executorBindingNames : List String :=
  ["createPolicy", "column", "auth", "session", "from",
   "currentUser", "policies"]

/-- An entry of the static example catalog: an immutable name/code pair. -/
structure Example where
  name : String
  code : String
  deriving DecidableEq, Repr

/-- The static `EXAMPLES` catalog (RLSTester.tsx lines 16-157). Each
button calls `loadExample(example.code)`. -/
def EXAMPLES : List Example :=
  [⟨"User Ownership",
    "const policy = createPolicy(\x27user_documents\x27)\n  .on(\x27documents\x27)\n  .read()\n  .when(column(\x27user_id\x27).isOwner());\n\nreturn policy.toSQL();"⟩,
   ⟨"Multi-Tenant",
    "const policy = createPolicy(\x27tenant_isolation\x27)\n  .on(\x27tenant_data\x27)\n  .all()\n  .requireAll()\n  .when(column(\x27tenant_id\x27).belongsToTenant());\n\nreturn policy.toSQL();"⟩,
   ⟨"Owner or Member",
    "const policy = createPolicy(\x27project_access\x27)\n  .on(\x27projects\x27)\n  .read()\n  .when(\n    column(\x27user_id\x27).isOwner()\n      .or(\n        column(\x27id\x27).in(\n          from(\x27project_members\x27)\n            .select(\x27project_id\x27)\n            .where(column(\x27user_id\x27).eq(auth.uid()))\n        )\n      )\n  );\n\nreturn policy.toSQL();"⟩,
   ⟨"Complex OR",
    "const policy = createPolicy(\x27project_access\x27)\n  .on(\x27projects\x27)\n  .read()\n  .when(\n    column(\x27is_public\x27).isPublic()\n      .or(column(\x27user_id\x27).isOwner())\n      .or(column(\x27organization_id\x27).eq(session.get(\x27app.org_id\x27, \x27uuid\x27)))\n  );\n\nreturn policy.toSQL();"⟩,
   ⟨"With Indexes",
    "const policy = createPolicy(\x27user_documents\x27)\n  .on(\x27documents\x27)\n  .read()\n  .when(column(\x27user_id\x27).isOwner());\n\nreturn policy.toSQL(\x7b includeIndexes: true \x7d);"⟩,
   ⟨"INSERT Validation",
    "const policy = createPolicy(\x27user_documents_insert\x27)\n  .on(\x27user_documents\x27)\n  .write()\n  .allow(column(\x27user_id\x27).isOwner());\n\nreturn policy.toSQL();"⟩,
   ⟨"UPDATE with Check",
    "const policy = createPolicy(\x27user_documents_update\x27)\n  .on(\x27user_documents\x27)\n  .update()\n  .allow(column(\x27user_id\x27).isOwner());\n\nreturn policy.toSQL();"⟩,
   ⟨"Template",
    "const [policy] = policies.userOwned(\x27documents\x27, \x27SELECT\x27);\n\nreturn policy.toSQL();"⟩,
   ⟨"DELETE Policy",
    "const policy = createPolicy(\x27user_documents_delete\x27)\n  .on(\x27documents\x27)\n  .delete()\n  .when(column(\x27user_id\x27).isOwner());\n\nreturn policy.toSQL();"⟩,
   ⟨"Pattern Matching",
    "const policy = createPolicy(\x27search_documents\x27)\n  .on(\x27documents\x27)\n  .read()\n  .when(\n    column(\x27title\x27).ilike(\x27%report%\x27)\n      .or(column(\x27category\x27).like(\x27Finance%\x27))\n  );\n\nreturn policy.toSQL();"⟩,
   ⟨"Null Checks",
    "const policy = createPolicy(\x27active_documents\x27)\n  .on(\x27documents\x27)\n  .read()\n  .when(\n    column(\x27deleted_at\x27).isNull()\n      .and(column(\x27published_at\x27).isNotNull())\n  );\n\nreturn policy.toSQL();"⟩,
   ⟨"Public Access Template",
    "const policy = policies.publicAccess(\x27documents\x27);\n\nreturn policy.toSQL();"⟩,
   ⟨"Role-Based Access",
    "const [policy] = policies.roleAccess(\x27admin_data\x27, \x27admin\x27, [\x27SELECT\x27, \x27UPDATE\x27]);\n\nreturn policy.toSQL();"⟩,
   ⟨"Helper Methods",
    "const policy = createPolicy(\x27document_access\x27)\n  .on(\x27documents\x27)\n  .read()\n  .when(\n    column(\x27user_id\x27).isOwner()\n      .or(column(\x27is_public\x27).isPublic())\n  );\n\nreturn policy.toSQL();"⟩]

/-- A session state after a successful execution: the output pane holds
generated SQL and no error is displayed. Used as the concrete prior
state in counterexamples and witnesses. -/
def staleSuccessState : State :=
  { input := "return 42;", output := "SELECT 1;", error := "",
    copied := false, copyTimer := none }

/-- A blank session state: empty input, no result, flag clear. -/
def blankState : State :=
  { input := "", output := "", error := "", copied := false,
    copyTimer := none }

/-! ### Build-time type-snapshot script (scripts/copy-types.js) -/

/-- A small file-system model for the copy-types script: the files that
exist (path/content pairs, later writes shadowing earlier ones) and the
paths on which a write throws (e.g. a permission error), which exercises
the script's catch branch. -/
structure FileSystem where
  files : List (String × String)
  failingWrites : List String
  deriving DecidableEq, Repr

/-- `existsSync`. -/
def FileSystem.existsSync (fs : FileSystem) (p : String) : Bool :=
  fs.files.any fun e => e.1 == p

/-- `readFileSync` on a path known to exist (every read in the script is
guarded by `existsSync`); absent paths read as empty. -/
def FileSystem.readFileSync (fs : FileSystem) (p : String) : String :=
  ((fs.files.find? fun e => e.1 == p).map Prod.snd).getD ""

/-- `writeFileSync`: throws on a failing path, otherwise replaces the
file's content. -/
def FileSystem.writeFileSync (fs : FileSystem) (p c : String) :
    Except String FileSystem :=
  if fs.failingWrites.contains p then
    .error "EACCES: permission denied"
  else
    .ok { fs with files := (p, c) :: fs.files.filter fun e => e.1 != p }

/-- `copyFileSync`: reads the source and writes the destination; throws
when the source is absent. -/
def FileSystem.copyFileSync (fs : FileSystem) (src dst : String) :
    Except String FileSystem :=
  if fs.existsSync src then fs.writeFileSync dst (fs.readFileSync src)
  else .error "ENOENT: no such file or directory"

/-- `sourcePath`: the preferred bundled declaration file. -/
def sourcePath : String := "node_modules/rls-dsl/dist/bundle.d.ts"

/-- `targetPath`: where the snapshot is written. -/
def targetPath : String := "src/rls-dsl-types.d.ts"

/-- `indexPath`: the main declaration entry used to decide whether a
combined regeneration is possible. -/
def indexPath : String := "node_modules/rls-dsl/dist/index.d.ts"

/-- `distDir`: the directory holding the constituent declaration files. -/
def distDir : String := "node_modules/rls-dsl/dist"

/-- The constituent declaration files combined in the fallback path, in
the script's order. -/
def declFiles : List String :=
  ["types.d.ts", "column.d.ts", "context.d.ts", "sql.d.ts",
   "subquery-builder.d.ts", "policy-builder.d.ts", "validation.d.ts",
   "composition.d.ts", "index.d.ts"]

/-- Whether a list of separator-split parts admits a split point with
nonempty text on both sides — the reachability condition for the two
`.+` groups of the line regexes. -/
def hasNonemptySplit : List String → Bool
  | [a, b] => a != "" && b != ""
  | [a, _, c] => a != "" || c != ""
  | _ :: _ :: _ :: _ :: _ => true
  | _ => false

/-- A line matched by `/^import .+ from .+;$/`. -/
def isImportLine (line : String) : Bool :=
  line.startsWith "import " && line.endsWith ";" &&
    hasNonemptySplit (((line.drop 7).dropRight 1).splitOn " from ")

/-- A line matched by `/^export \x2a from .+;$/`. -/
def isExportStarLine (line : String) : Bool :=
  line.startsWith "export * from " && line.endsWith ";" &&
    line.length ≥ 16

/-- The two `content.replace(..., '')` calls with the `gm` flags: each
matching line is replaced by the empty line. -/
def stripModuleLines (content : String) : String :=
  String.intercalate "\n" ((content.splitOn "\n").map fun line =>
    if isImportLine line || isExportStarLine line then "" else line)

/-- The combined declaration text built in the regeneration branch: the
header comment, then each existing constituent file's stripped content
followed by a blank line. -/
def combinedDecls (fs : FileSystem) : String :=
  declFiles.foldl
    (fun acc f =>
      if fs.existsSync (distDir ++ "/" ++ f) then
        acc ++ stripModuleLines (fs.readFileSync (distDir ++ "/" ++ f))
          ++ "\n\n"
      else acc)
    "// Auto-generated type definitions for rls-dsl\n\n"

/-- The last-resort stub written when neither the bundle nor the index
declarations exist. -/
def fallbackDeclContent : String :=
  "// Fallback type definitions\nexport * from \x27rls-dsl\x27;\n"

/-- The `try` body of scripts/copy-types.js: copy the bundle when it
exists; otherwise combine the constituent declaration files when the
index exists; otherwise write the stub re-export. -/
def copyTypesBody (fs : FileSystem) : Except String FileSystem :=
  if fs.existsSync sourcePath then
    fs.copyFileSync sourcePath targetPath
  else if fs.existsSync indexPath then
    fs.writeFileSync targetPath (combinedDecls fs)
  else
    fs.writeFileSync targetPath fallbackDeclContent

/-- The whole script: the successful path falls off the end of the
program (exit status 0) and the catch logs the error and calls
`process.exit(0)` — the build is never failed. -/
def copyTypesScript (fs : FileSystem) : Nat × FileSystem :=
  match copyTypesBody fs with
  | .ok fs2 => (0, fs2)
  | .error _ => (0, fs)

end TsToRlsDemo

namespace TsToRlsDemo

/-- Claim C1: a program whose evaluation completes and returns a string
`S` makes `executeCode` set the output to exactly `S` and report no
error. -/
theorem execute_string_return_success (s : State) (S : String) :
    (executeCode (.returns (.str S)) s).output = S ∧
    (executeCode (.returns (.str S)) s).error = "" :=
  ⟨rfl, rfl⟩

/-- Claim C2: a program whose evaluation completes and returns any
non-string value (undefined included) makes `executeCode` report exactly
the fixed contract-violation message, and the rendered result is that
failure, whatever the value's shape. -/
theorem execute_nonstring_fixed_message (s : State) (v : JSValue)
    (h : v.isString = false) :
    (executeCode (.returns v) s).error = contractViolationMessage ∧
    resultView (executeCode (.returns v) s) =
      .failure contractViolationMessage := by
  cases v <;> simp_all [executeCode, resultView, contractViolationMessage,
    JSValue.isString]

/-- Witness for C2 at the undefined value (a program with no `return`). -/
theorem execute_nonstring_fixed_message_witness :
    JSValue.undef.isString = false ∧
    (executeCode (.returns .undef) blankState).error =
      contractViolationMessage :=
  ⟨rfl, (execute_nonstring_fixed_message blankState .undef rfl).1⟩

/-- Claim C3 counterexample: throwing an `Error` whose `message` is the
empty string produces an empty error message — `err.message` is used
whenever `err instanceof Error`, with no non-emptiness check — and the
resulting state renders as the idle placeholder, not as a failure. -/
theorem execute_throw_empty_message_counterexample :
    (executeCode (.throws (.errorInstance "")) blankState).error = "" ∧
    resultView (executeCode (.throws (.errorInstance "")) blankState) =
      .idle := by
  constructor
  · rfl
  · decide

/-- Claim C3 amended: every throw is contained — `executeCode` always
produces a state, clearing the output and setting the error to the
thrown `Error`'s `message` when the value is an `Error` instance (which
may be empty), and to the generic fallback otherwise. -/
theorem execute_throw_contained (s : State) (t : Thrown) :
    (executeCode (.throws t) s).output = "" ∧
    (executeCode (.throws t) s).error =
      (match t with
       | .errorInstance m => m
       | .nonError _ => genericFallbackMessage) := by
  cases t <;> exact ⟨rfl, rfl⟩

/-- Claim C4 counterexample: starting from a prior Success, an execute
that ends in a contract violation sets the fresh error but leaves the
stale success text in the output cell — a component of the previous
result coexists with the fresh one. -/
theorem execute_stale_output_counterexample :
    (executeCode (.returns (.num 42)) staleSuccessState).output =
      "SELECT 1;" ∧
    (executeCode (.returns (.num 42)) staleSuccessState).error =
      contractViolationMessage :=
  ⟨rfl, rfl⟩

/-- Claim C4 amended: the rendered result is replaced atomically — after
an execute it is a function of the fresh outcome alone, independent of
every prior state — but the raw output cell itself retains the stale
success text in the contract-violation branch (masked by the error
pane's display priority). -/
theorem execute_view_depends_only_on_outcome (s1 s2 : State)
    (o : EvalOutcome) :
    resultView (executeCode o s1) = resultView (executeCode o s2) := by
  have h : contractViolationMessage ≠ "" := by decide
  cases o with
  | returns v => cases v <;> simp [executeCode, resultView, h]
  | throws t => simp [executeCode, resultView]

/-- Claim C5 counterexample: an editor edit (`onChange`) replaces only
the input cell; a prior success text survives it, so the result channel
does not return to Idle on edits — only `loadExample` clears it. -/
theorem edit_keeps_result_counterexample :
    (onChange (some "x") staleSuccessState).output = "SELECT 1;" ∧
    resultView (onChange (some "x") staleSuccessState) =
      .success "SELECT 1;" := by
  constructor
  · rfl
  · decide

/-- Claim C5 amended: loading an example returns the result channel to
the idle view, but an editor edit only replaces the program source
(collapsing an absent value to the empty string), leaving the output and
error cells — and hence the rendered result — exactly as they were. -/
theorem edit_and_load_result_channel (s : State) (code : String)
    (v : Option String) :
    resultView (loadExample code s) = .idle ∧
    (onChange v s).output = s.output ∧
    (onChange v s).error = s.error ∧
    (onChange v s).input = v.getD "" := by
  refine ⟨?_, rfl, rfl, rfl⟩
  simp [loadExample, resultView]

/-- Claim C6 counterexample: `hasRole` is declared as an ambient
constant by the editor bridge's global-declarations document but is not
among the parameters bound by the executor's `new Function` scope, so
the two name sets are not equal. -/
theorem declared_vs_bound_names_counterexample :
    globalDeclarationNames.contains "hasRole" = true ∧
    executorBindingNames.contains "hasRole" = false := by
  decide

/-- Claim C6 amended: every name the executor binds is declared by the
bridge, but the bridge additionally declares `hasRole`, `alwaysTrue` and
`call`, which the executor never binds — the bound set is a strict
subset of the declared set. -/
theorem executor_names_strict_subset_of_declared :
    (executorBindingNames.all fun n =>
      globalDeclarationNames.contains n) = true ∧
    (["hasRole", "alwaysTrue", "call"].all fun n =>
      globalDeclarationNames.contains n &&
        !executorBindingNames.contains n) = true := by
  decide

/-- Claim C7: loading any catalog example sets the program source to
exactly that example's code and resets both result cells to the neutral
empty state, which renders as the idle placeholder — distinct from every
success and every failure view. -/
theorem load_example_resets (e : Example) (_h : e ∈ EXAMPLES) (s : State) :
    (loadExample e.code s).input = e.code ∧
    (loadExample e.code s).output = "" ∧
    (loadExample e.code s).error = "" ∧
    resultView (loadExample e.code s) = .idle := by
  refine ⟨rfl, rfl, rfl, ?_⟩
  simp [loadExample, resultView]

/-- Witness for C7 at the first catalog entry and a prior failed state. -/
theorem load_example_resets_witness :
    (⟨"User Ownership",
      "const policy = createPolicy(\x27user_documents\x27)\n  .on(\x27documents\x27)\n  .read()\n  .when(column(\x27user_id\x27).isOwner());\n\nreturn policy.toSQL();"⟩ : Example)
      ∈ EXAMPLES ∧
    resultView (loadExample
      (⟨"User Ownership",
        "const policy = createPolicy(\x27user_documents\x27)\n  .on(\x27documents\x27)\n  .read()\n  .when(column(\x27user_id\x27).isOwner());\n\nreturn policy.toSQL();"⟩ : Example).code
      staleSuccessState) = .idle :=
  ⟨List.mem_cons_self _ _,
   (load_example_resets _ (List.mem_cons_self _ _) staleSuccessState).2.2.2⟩

/-- Claim C8: completing the copy action on a nonempty success text sets
the transient copied flag and arms its automatic revert with a delay of
exactly 2000 ms (2 seconds); firing that timer clears the flag with no
user input. -/
theorem copy_ack_set_and_reverts (s : State) (h : s.output ≠ "") :
    (copyToClipboard true s).state.copied = true ∧
    (copyToClipboard true s).state.copyTimer = some 2000 ∧
    (fireCopyTimer (copyToClipboard true s).state).copied = false := by
  simp [copyToClipboard, fireCopyTimer, copyAckDelayMs, h]

/-- Witness for C8 at a concrete succeeded state. -/
theorem copy_ack_set_and_reverts_witness :
    staleSuccessState.output ≠ "" ∧
    (copyToClipboard true staleSuccessState).state.copied = true ∧
    (copyToClipboard true staleSuccessState).state.copyTimer = some 2000 :=
  ⟨by decide,
   (copy_ack_set_and_reverts staleSuccessState (by decide)).1,
   (copy_ack_set_and_reverts staleSuccessState (by decide)).2.1⟩

/-- Claim C10: invoking the copy action while the success text is empty
is a no-op — the truthiness guard fails, no clipboard write is
attempted, and the whole session state (flag and timer included) is
returned unchanged, whether or not a write would have succeeded. -/
theorem copy_noop_on_empty_output (s : State) (writeOk : Bool)
    (h : s.output = "") :
    copyToClipboard writeOk s = ⟨s, none⟩ := by
  simp [copyToClipboard, h]

/-- Witness for C10 at the blank state. -/
theorem copy_noop_on_empty_output_witness :
    blankState.output = "" ∧
    copyToClipboard true blankState = ⟨blankState, none⟩ :=
  ⟨rfl, copy_noop_on_empty_output blankState true rfl⟩

/-- Reading back a path just written, when the write does not throw,
yields the written content. -/
theorem readFileSync_after_write (fs : FileSystem) (p c : String)
    (hw : fs.failingWrites.contains p = false) :
    (fs.writeFileSync p c).map (fun g => g.readFileSync p) = .ok c := by
  have hw2 : p ∉ fs.failingWrites := by simpa using hw
  simp [FileSystem.writeFileSync, hw2, FileSystem.readFileSync,
    Except.map, List.find?_cons_of_pos]

/-- Claim C9: the type-snapshot step never fails the build — the script
exits with status 0 on every file system, failing writes included — and
when the preferred bundle is absent it writes the combined regeneration
from the constituent declaration files if the index declaration exists,
otherwise the minimal stub re-export. -/
theorem copy_types_never_fails (fs : FileSystem)
    (hb : fs.existsSync sourcePath = false)
    (hw : fs.failingWrites.contains targetPath = false) :
    (∀ g : FileSystem, (copyTypesScript g).1 = 0) ∧
    (copyTypesScript fs).2.readFileSync targetPath =
      (if fs.existsSync indexPath then combinedDecls fs
       else fallbackDeclContent) := by
  constructor
  · intro g
    cases hg : copyTypesBody g <;> simp [copyTypesScript, hg]
  · cases hi : fs.existsSync indexPath with
    | true =>
        have h2 := readFileSync_after_write fs targetPath
          (combinedDecls fs) hw
        cases hwr : fs.writeFileSync targetPath (combinedDecls fs) with
        | ok g =>
            rw [hwr] at h2
            simp only [Except.map] at h2
            simp [copyTypesScript, copyTypesBody, hb, hi, hwr]
            exact Except.ok.inj h2
        | error e => rw [hwr] at h2; simp [Except.map] at h2
    | false =>
        have h2 := readFileSync_after_write fs targetPath
          fallbackDeclContent hw
        cases hwr : fs.writeFileSync targetPath fallbackDeclContent with
        | ok g =>
            rw [hwr] at h2
            simp only [Except.map] at h2
            simp [copyTypesScript, copyTypesBody, hb, hi, hwr]
            exact Except.ok.inj h2
        | error e => rw [hwr] at h2; simp [Except.map] at h2

/-- Witness for C9 at the empty file system: bundle and index both
absent, the write succeeds, the stub is written and the script exits 0. -/
theorem copy_types_never_fails_witness :
    (⟨[], []⟩ : FileSystem).existsSync sourcePath = false ∧
    (⟨[], []⟩ : FileSystem).failingWrites.contains targetPath = false ∧
    (copyTypesScript ⟨[], []⟩).2.readFileSync targetPath =
      (if (⟨[], []⟩ : FileSystem).existsSync indexPath then
        combinedDecls ⟨[], []⟩ else fallbackDeclContent) :=
  ⟨rfl, rfl, (copy_types_never_fails ⟨[], []⟩ rfl rfl).2⟩

end TsToRlsDemo
